import Mathlib

/-!
Verification of the decision core of the `bot-telegram` trading-signal
repository.  Python modules under `src/bot/` are shallowly embedded:
pure functions become Lean functions over `ℚ` (Python floats) and `ℤ`
(timestamps/dates), stateful classes become explicit state records with
pure transition functions, and the ambient wall clock
(`time.time()` / `datetime.utcnow()`) becomes an explicit `now`
parameter.  Python dicts with `.get(key, default)` access are embedded
as total functions with the default value, and dicts whose insertion
order matters as association lists.
-/

/-- Python `range(a, b)` as a list of naturals (empty when `b ≤ a`). -/
def pyRange (a b : ℕ) : List ℕ :=
  (List.range (b - a)).map (· + a)

/-- Python slice `l[-n:]`: the last `n` elements (whole list when `n ≥ len`). -/
def pyTakeLast {α : Type} (l : List α) (n : ℕ) : List α :=
  l.drop (l.length - n)

/-- `deque(maxlen=m).append`: append on the right, dropping from the left
when the bound is exceeded. -/
def appendBounded {α : Type} (l : List α) (c : α) (m : ℕ) : List α :=
  if l.length + 1 ≤ m then l ++ [c] else (l ++ [c]).drop (l.length + 1 - m)

/-- Pointwise update of a total function embedding a Python dict. -/
def setKey {κ α : Type} [DecidableEq κ] (f : κ → α) (k : κ) (v : α) : κ → α :=
  fun k' => if k' = k then v else f k'

/-- Python's truthiness test `if x:` on an optional float: true exactly when
a value is present and nonzero (both `None` and `0.0` are falsy). -/
def truthy (o : Option ℚ) : Bool :=
  match o with
  | none => false
  | some v => decide (v ≠ 0)

/-! ## `src/bot/signal_deduplicator.py` — `SignalDeduplicator`

State of the class: `_signal_times` (dict keyed by
`(symbol, direction, setup_type)` with `.get(key, 0)` access, embedded as a
total function defaulting to 0), `_last_global_signal_time`,
`_active_signals` (dict with `.get(symbol, 0)` access, counts are Python
ints, embedded as `ℤ`-valued total function), and `_current_window_signals`
(dict of per-`(symbol, window_start)` direction sets). -/

/-- Key of `_signal_times`: `(symbol, direction, setup_type)`. -/
abbrev SignalKey := String × String × String

structure SignalDeduplicator where
  signal_cooldown_seconds : ℚ
  global_cooldown_seconds : ℚ
  max_active_per_symbol : ℤ
  signal_times : SignalKey → ℚ
  last_global_signal_time : ℚ
  active_signals : String → ℤ
  current_window_signals : String × ℤ → List String

/-- `SignalDeduplicator.__init__` with its default parameters
(1800 s signal cooldown, 60 s global cooldown, 3 active per symbol). -/
def SignalDeduplicator.init (signal_cooldown_seconds : ℚ := 1800)
    (global_cooldown_seconds : ℚ := 60) (max_active_per_symbol : ℤ := 3) :
    SignalDeduplicator where
  signal_cooldown_seconds := signal_cooldown_seconds
  global_cooldown_seconds := global_cooldown_seconds
  max_active_per_symbol := max_active_per_symbol
  signal_times := fun _ => 0
  last_global_signal_time := 0
  active_signals := fun _ => 0
  current_window_signals := fun _ => []

/-- The reason strings returned by `can_send_signal`, abstracting the
formatted remaining-seconds text. -/
inductive SendReason
  | globalCooldown (remaining : ℚ)
  | maxActivePerSymbol (count limit : ℤ)
  | signalCooldown (remaining : ℚ)
  | ok
  deriving DecidableEq

/-- A reason that reports a cooldown (as opposed to the active-signal cap
or success). -/
def SendReason.isCooldown : SendReason → Bool
  | .globalCooldown _ => true
  | .signalCooldown _ => true
  | _ => false

/-- `SignalDeduplicator.can_send_signal`: global cooldown, then per-symbol
active cap, then the per-`(symbol, direction, setup_type)` cooldown,
short-circuiting on the first failure. -/
def SignalDeduplicator.can_send_signal (d : SignalDeduplicator)
    (symbol direction setup_type : String) (current_time : ℚ) :
    Bool × SendReason :=
  let time_since_last_global := current_time - d.last_global_signal_time
  if time_since_last_global < d.global_cooldown_seconds then
    (false, .globalCooldown (d.global_cooldown_seconds - time_since_last_global))
  else
    let active_count := d.active_signals symbol
    if d.max_active_per_symbol ≤ active_count then
      (false, .maxActivePerSymbol active_count d.max_active_per_symbol)
    else
      let last_signal_time := d.signal_times (symbol, direction, setup_type)
      let time_since_last := current_time - last_signal_time
      if time_since_last < d.signal_cooldown_seconds then
        (false, .signalCooldown (d.signal_cooldown_seconds - time_since_last))
      else
        (true, .ok)

/-- `SignalDeduplicator.record_signal`: stamps the key time and the global
time, increments the symbol's active count, and when a window start is
given adds the direction to that window's set. -/
def SignalDeduplicator.record_signal (d : SignalDeduplicator)
    (symbol direction setup_type : String) (window_start_time : Option ℤ)
    (current_time : ℚ) : SignalDeduplicator :=
  let d1 := { d with
    signal_times := setKey d.signal_times (symbol, direction, setup_type) current_time
    last_global_signal_time := current_time
    active_signals := setKey d.active_signals symbol (d.active_signals symbol + 1) }
  match window_start_time with
  | none => d1
  | some w =>
      let ws := setKey d1.current_window_signals (symbol, w)
        (d1.current_window_signals (symbol, w) ++ [direction])
      { d1 with current_window_signals := ws }

/-- `SignalDeduplicator.resolve_signal`: decrement the symbol's active
count only when it is strictly positive, otherwise leave the state as is. -/
def SignalDeduplicator.resolve_signal (d : SignalDeduplicator)
    (symbol : String) : SignalDeduplicator :=
  if 0 < d.active_signals symbol then
    { d with active_signals :=
        setKey d.active_signals symbol (d.active_signals symbol - 1) }
  else
    d

/-! ## `src/bot/risk_manager.py` — `RiskManager`

Prices are `ℚ`.  `calculate_targets` and `_calculate_rr` are stateless;
the daily-signal gate `check_daily_limit` reads and resets the pair
`(daily_signals, last_reset_date)`, with `datetime.utcnow().date()`
embedded as an explicit `current_date : ℤ` parameter. -/

/-- `config.TP1_RR` -/
def TP1_RR : ℚ := 1
/-- `config.TP2_RR` -/
def TP2_RR : ℚ := 2
/-- `config.TP3_RR` -/
def TP3_RR : ℚ := 3
/-- `config.MAX_SIGNALS_PER_DAY` -/
def MAX_SIGNALS_PER_DAY : ℤ := 3

/-- One side of the `liquidity_levels` dict (`internal` or `external`):
optional `high` and `low` levels, absent key embedded as `none`. -/
structure LiquiditySide where
  high : Option ℚ := none
  low : Option ℚ := none

/-- The `liquidity_levels` argument of `calculate_targets`: the `internal`
and `external` sub-dicts (missing sub-dict embedded as the empty side,
matching `liquidity_levels.get('internal', {})`). -/
structure LiquidityLevels where
  internal : LiquiditySide := {}
  external : LiquiditySide := {}

/-- Result dict of `RiskManager.calculate_targets`. -/
structure Targets where
  tp1 : ℚ
  tp2 : ℚ
  tp3 : ℚ
  tp1_rr : ℚ
  tp2_rr : ℚ
  tp3_rr : ℚ

/-- `RiskManager._calculate_rr` -/
def RiskManager.calculate_rr (entry stop_loss take_profit : ℚ) : ℚ :=
  let risk := |entry - stop_loss|
  let reward := |take_profit - entry|
  if risk = 0 then 0 else reward / risk

/-- `RiskManager.calculate_targets`: R-multiple targets, with TP2/TP3
overridden by internal/external liquidity levels whenever those are
present and truthy.  No ordering validation is performed on the result. -/
def RiskManager.calculate_targets (entry stop_loss : ℚ) (direction : String)
    (liquidity_levels : Option LiquidityLevels) : Targets :=
  let risk := |entry - stop_loss|
  let base :=
    if direction = "long" then
      (entry + risk * TP1_RR, entry + risk * TP2_RR, entry + risk * TP3_RR)
    else
      (entry - risk * TP1_RR, entry - risk * TP2_RR, entry - risk * TP3_RR)
  let tps :=
    match liquidity_levels with
    | none => base
    | some liq =>
        if direction = "long" then
          let t2 := if truthy liq.internal.high then (liq.internal.high).getD 0 else base.2.1
          let t3 := if truthy liq.external.high then (liq.external.high).getD 0 else base.2.2
          (base.1, t2, t3)
        else
          let t2 := if truthy liq.internal.low then (liq.internal.low).getD 0 else base.2.1
          let t3 := if truthy liq.external.low then (liq.external.low).getD 0 else base.2.2
          (base.1, t2, t3)
  { tp1 := tps.1
    tp2 := tps.2.1
    tp3 := tps.2.2
    tp1_rr := RiskManager.calculate_rr entry stop_loss tps.1
    tp2_rr := RiskManager.calculate_rr entry stop_loss tps.2.1
    tp3_rr := RiskManager.calculate_rr entry stop_loss tps.2.2 }

/-- The mutable daily-counter state of `RiskManager` used by
`check_daily_limit` / `register_signal`. -/
structure RiskManagerState where
  daily_signals : ℕ
  last_reset_date : ℤ

/-- `RiskManager.check_daily_limit`: reset the counter on a new day, then
allow iff the day's count is strictly below the limit
(`max_signals` when given, else `config.MAX_SIGNALS_PER_DAY`).
Returns the decision together with the possibly reset state. -/
def RiskManager.check_daily_limit (s : RiskManagerState) (current_date : ℤ)
    (max_signals : Option ℤ) : Bool × RiskManagerState :=
  let s1 := if current_date ≠ s.last_reset_date then
      { daily_signals := 0, last_reset_date := current_date }
    else s
  let limit := max_signals.getD MAX_SIGNALS_PER_DAY
  if limit ≤ (s1.daily_signals : ℤ) then (false, s1) else (true, s1)

/-! ## `src/bot/strategy.py` — `Strategy._calculate_tp_targets`

The structural levels returned by
`data_manager.find_multiple_sr_levels(...)` are passed in as the list
`sr_levels`.  After the level-count ladder, the TP ordering is validated
and on violation the whole triple is replaced by the 1R/2R/3R fallback. -/

/-- The SR-level-count ladder of `Strategy._calculate_tp_targets`:
take up to three structural levels, topping up with 2R/3R
R-multiple targets. -/
def Strategy.tpLadder (entry risk : ℚ) (direction : String)
    (sr_levels : List ℚ) : ℚ × ℚ × ℚ :=
  if 3 ≤ sr_levels.length then
    (sr_levels.getD 0 0, sr_levels.getD 1 0, sr_levels.getD 2 0)
  else if sr_levels.length = 2 then
    let tp3 := if direction = "long" then entry + 3 * risk else entry - 3 * risk
    (sr_levels.getD 0 0, sr_levels.getD 1 0, tp3)
  else if sr_levels.length = 1 then
    let tp2 := if direction = "long" then entry + 2 * risk else entry - 2 * risk
    let tp3 := if direction = "long" then entry + 3 * risk else entry - 3 * risk
    (sr_levels.getD 0 0, tp2, tp3)
  else
    if direction = "long" then
      (entry + 1 * risk, entry + 2 * risk, entry + 3 * risk)
    else
      (entry - 1 * risk, entry - 2 * risk, entry - 3 * risk)

/-- The final validation block of `Strategy._calculate_tp_targets`:
on any ordering violation the whole triple is replaced by the
1R/2R/3R fallback. -/
def Strategy.validateTpOrdering (entry risk : ℚ) (direction : String)
    (tps : ℚ × ℚ × ℚ) : ℚ × ℚ × ℚ :=
  if direction = "long" then
    if ¬(entry < tps.1 ∧ tps.1 < tps.2.1 ∧ tps.2.1 < tps.2.2) then
      (entry + 1 * risk, entry + 2 * risk, entry + 3 * risk)
    else tps
  else
    if ¬(entry > tps.1 ∧ tps.1 > tps.2.1 ∧ tps.2.1 > tps.2.2) then
      (entry - 1 * risk, entry - 2 * risk, entry - 3 * risk)
    else tps

/-- `Strategy._calculate_tp_targets`: the level ladder followed by the
ordering validation, with `risk = |entry − stop|`. -/
def Strategy.calculate_tp_targets (entry stop_loss : ℚ) (direction : String)
    (sr_levels : List ℚ) : ℚ × ℚ × ℚ :=
  Strategy.validateTpOrdering entry |entry - stop_loss| direction
    (Strategy.tpLadder entry |entry - stop_loss| direction sr_levels)


/-! ## `src/bot/candle_patterns.py` — `Candle` and `calculate_atr`

Only the pieces consumed by the scoring engine are embedded: the candle
record with its derived body/wick quantities, and the ATR helper. -/

/-- `candle_patterns.Candle` (OHLCV and derived quantities as methods). -/
structure PCandle where
  open_price : ℚ
  high : ℚ
  low : ℚ
  close : ℚ
  volume : ℚ

/-- The all-zero candle, used as an out-of-range list access default
(never reached on in-bounds indices). -/
def cdflt : PCandle := ⟨0, 0, 0, 0, 0⟩

/-- `Candle.body` -/
def PCandle.body (c : PCandle) : ℚ := |c.close - c.open_price|

/-- `Candle.is_bullish` -/
def PCandle.is_bullish (c : PCandle) : Bool := decide (c.open_price < c.close)

/-- `Candle.is_bearish` -/
def PCandle.is_bearish (c : PCandle) : Bool := decide (c.close < c.open_price)

/-- `candle_patterns.calculate_atr`: mean true range of the last `period`
candles, 0 when fewer than `period + 1` candles exist. -/
def CandlePatterns.calculate_atr (candles : List PCandle) (period : ℕ) : ℚ :=
  if candles.length < period + 1 then 0
  else
    let trs := (pyRange (candles.length - period) candles.length).map (fun i =>
      if i = 0 then (candles.getD i cdflt).high - (candles.getD i cdflt).low
      else
        let c := candles.getD i cdflt
        let p := candles.getD (i - 1) cdflt
        max (c.high - c.low) (max |c.high - p.close| |c.low - p.close|))
    trs.sum / (trs.length : ℚ)

/-! ## `src/bot/config.py` — scoring weight sets

`CONTINUATION_WEIGHTS` and `REVERSAL_WEIGHTS` as shipped
(dict embedded as an ordered key/value list). -/

/-- `config.CONTINUATION_WEIGHTS` -/
def CONTINUATION_WEIGHTS : List (String × ℤ) :=
  [("structure", 25), ("pullback", 20), ("premium_discount", 15),
   ("liquidity", 15), ("ob_fvg", 10), ("displacement", 10), ("volatility", 5)]

/-- `config.REVERSAL_WEIGHTS` -/
def REVERSAL_WEIGHTS : List (String × ℤ) :=
  [("external_sweep", 25), ("choch_4h", 25), ("displacement", 15),
   ("sr_strength", 15), ("pattern", 10), ("volatility", 5), ("premium_discount", 5)]

/-- Sum of a weight dict's values. -/
def weightSum (w : List (String × ℤ)) : ℤ := (w.map Prod.snd).sum

/-! ## `src/bot/scoring_engine.py` — `ScoringEngine`

`self.weights = config.SCORE_WEIGHTS` is a six-key dict, embedded as a
record (the dict key `'structure'` becomes the field `structure_`).
The two detector objects built in `__init__` are embedded by their
scoring methods (`CandlePatternDetector.score_pattern_confirmation` and
`TrendlineDetector.score_trendline_alignment`), carried as function
fields, and the config thresholds the class reads are carried alongside. -/

/-- The `config.SCORE_WEIGHTS` dict shape used by `ScoringEngine`. -/
structure ScoreWeights where
  trend_alignment : ℚ
  structure_ : ℚ
  momentum : ℚ
  candle_patterns : ℚ
  trendline : ℚ
  risk_reward : ℚ

/-- Sum of the six score weights. -/
def scoreWeightsSum (w : ScoreWeights) : ℚ :=
  w.trend_alignment + w.structure_ + w.momentum + w.candle_patterns +
    w.trendline + w.risk_reward

structure ScoringEngine where
  weights : ScoreWeights
  patternScorer : List PCandle → String → ℚ → Option ℚ → ℚ × List String
  trendlineScorer : List PCandle → ℚ → String → ℚ × String
  min_closed_candles_for_structure : ℕ
  min_volume_increase : ℚ

/-- `ScoringEngine.__init__`: builds the detectors and stores the
configured weights.  No validation of any kind is applied to the
weights — construction always succeeds. -/
def ScoringEngine.init (weights : ScoreWeights)
    (patternScorer : List PCandle → String → ℚ → Option ℚ → ℚ × List String)
    (trendlineScorer : List PCandle → ℚ → String → ℚ × String)
    (min_closed_candles_for_structure : ℕ) (min_volume_increase : ℚ) :
    ScoringEngine :=
  ⟨weights, patternScorer, trendlineScorer, min_closed_candles_for_structure,
    min_volume_increase⟩

/-- `ScoringEngine.score_trend_alignment` -/
def ScoringEngine.score_trend_alignment
    (trend_30m trend_1h trend_4h direction : String) : ℚ × String :=
  let expected_trend := if direction = "long" then "up" else "down"
  let s4 : ℚ := if trend_4h = expected_trend then 50
    else if trend_4h = "neutral" then 25 else 0
  let s1 : ℚ := if trend_1h = expected_trend then 30
    else if trend_1h = "neutral" then 15 else 0
  let s30 : ℚ := if trend_30m = expected_trend then 20
    else if trend_30m = "neutral" then 10 else 0
  let aligned : List String :=
    (if trend_4h = expected_trend then ["4h"] else []) ++
    (if trend_1h = expected_trend then ["1h"] else []) ++
    (if trend_30m = expected_trend then ["30m"] else [])
  let reason := if aligned = [] then "no_alignment"
    else "aligned_timeframes: " ++ String.intercalate (",") aligned
  (s4 + s1 + s30, reason)

/-- `ScoringEngine.score_structure` (the
`config.MIN_VOLUME_INCREASE_RATIO` threshold is the engine's
`min_volume_increase` field). -/
def ScoringEngine.score_structure (e : ScoringEngine) (current_price : ℚ)
    (nearest_support nearest_resistance : Option ℚ) (atr : ℚ)
    (direction : String) (volume_r : ℚ) : ℚ × String :=
  let levelScore : Option ℚ → ℚ := fun lvl =>
    if truthy lvl then
      let distance := if 0 < atr then |current_price - lvl.getD 0| / atr else 999
      if distance < 1/2 then 40 else if distance < 1 then 25 else 0
    else 0
  let breakScore : Option ℚ → Bool → ℚ := fun lvl broke =>
    if truthy lvl ∧ broke then
      40 + (if e.min_volume_increase ≤ volume_r then 20 else 0)
    else 0
  let score : ℚ :=
    if direction = "long" then
      levelScore nearest_support +
        breakScore nearest_resistance (decide (nearest_resistance.getD 0 < current_price))
    else
      levelScore nearest_resistance +
        breakScore nearest_support (decide (current_price < nearest_support.getD 0))
  (min score 100, "structure_reasons")

/-- `ScoringEngine.score_momentum` -/
def ScoringEngine.score_momentum (candles : List PCandle) (direction : String)
    (recent_bars : ℕ := 5) : ℚ × String :=
  if candles.length < recent_bars then (50, "insufficient_data")
  else
    let recent := pyTakeLast candles recent_bars
    if direction = "long" then
      let bullish_count := (recent.filter (fun c => c.is_bullish)).length
      let bullish_pct : ℚ := (bullish_count : ℚ) / (recent.length : ℚ)
      let higher_closes := ((pyRange 1 recent.length).filter (fun i =>
        (recent.getD (i - 1) cdflt).close < (recent.getD i cdflt).close)).length
      (bullish_pct * 60 + ((higher_closes : ℚ) / ((recent.length : ℚ) - 1)) * 40,
        "bullish_" ++ toString bullish_count ++ "/" ++ toString recent.length)
    else
      let bearish_count := (recent.filter (fun c => c.is_bearish)).length
      let bearish_pct : ℚ := (bearish_count : ℚ) / (recent.length : ℚ)
      let lower_closes := ((pyRange 1 recent.length).filter (fun i =>
        (recent.getD i cdflt).close < (recent.getD (i - 1) cdflt).close)).length
      (bearish_pct * 60 + ((lower_closes : ℚ) / ((recent.length : ℚ) - 1)) * 40,
        "bearish_" ++ toString bearish_count ++ "/" ++ toString recent.length)

/-- The candle-pattern component of `calculate_total_score`: the detector
is consulted only when at least one candle exists, else the neutral 50. -/
def ScoringEngine.patternComponent (e : ScoringEngine)
    (candles : List PCandle) (direction : String) (atr : ℚ)
    (nearby_level : Option ℚ) : ℚ × List String :=
  if 1 ≤ candles.length then e.patternScorer candles direction atr nearby_level
  else (50, [])

/-- The trendline component of `calculate_total_score`: the detector is
consulted only above the structure warm-up length, else the neutral 50. -/
def ScoringEngine.trendlineComponent (e : ScoringEngine)
    (candles : List PCandle) (current_price : ℚ) (direction : String) :
    ℚ × String :=
  if e.min_closed_candles_for_structure ≤ candles.length then
    e.trendlineScorer candles current_price direction
  else (50, "not_analyzed")

/-- The risk/reward component of `calculate_total_score`: neutral 50
unless entry, stop and target are all provided (and truthy), else tiered
by the reward-to-risk ratio. -/
def ScoringEngine.riskRewardScore
    (entry stop_loss take_profit : Option ℚ) : ℚ × String :=
  if truthy entry ∧ truthy stop_loss ∧ truthy take_profit then
    let risk := |entry.getD 0 - stop_loss.getD 0|
    let reward := |take_profit.getD 0 - entry.getD 0|
    let rr := if 0 < risk then reward / risk else 0
    let score : ℚ := if 3 ≤ rr then 100 else if 2 ≤ rr then 80
      else if 3/2 ≤ rr then 60 else 30
    (score, "rr_" ++ toString rr)
  else (50, "not_provided")

/-- One entry of the returned `component_scores` dict. -/
structure ComponentEntry where
  score : ℚ
  weighted : ℚ
  reason : String

/-- The `candle_patterns` entry (carries the matched pattern list). -/
structure PatternEntry where
  score : ℚ
  weighted : ℚ
  patterns : List String

/-- The `component_scores` dict of `calculate_total_score`. -/
structure ComponentScores where
  trend_alignment : ComponentEntry
  structure_ : ComponentEntry
  momentum : ComponentEntry
  candle_patterns : PatternEntry
  trendline : ComponentEntry
  risk_reward : ComponentEntry

/-- `ScoringEngine.calculate_total_score`: each component score is
weighted by `weight / 100` and the total is the plain sum of the six
weighted values.  No clamping is applied to the total. -/
def ScoringEngine.calculate_total_score (e : ScoringEngine)
    (trend_30m trend_1h trend_4h : String) (candles_30m : List PCandle)
    (current_price : ℚ) (direction : String)
    (nearest_support : Option ℚ := none)
    (nearest_resistance : Option ℚ := none) (volume_r : ℚ := 1)
    (entry : Option ℚ := none) (stop_loss : Option ℚ := none)
    (take_profit : Option ℚ := none) : ℚ × ComponentScores :=
  let trend := ScoringEngine.score_trend_alignment trend_30m trend_1h trend_4h direction
  let atr := CandlePatterns.calculate_atr candles_30m 14
  let structure_score := e.score_structure current_price nearest_support
    nearest_resistance atr direction volume_r
  let momentum := ScoringEngine.score_momentum candles_30m direction 5
  let nearby_level := if direction = "long" then nearest_support else nearest_resistance
  let pattern := e.patternComponent candles_30m direction atr nearby_level
  let trendline := e.trendlineComponent candles_30m current_price direction
  let rr := ScoringEngine.riskRewardScore entry stop_loss take_profit
  let comps : ComponentScores :=
    { trend_alignment := ⟨trend.1, trend.1 * e.weights.trend_alignment / 100, trend.2⟩
      structure_ := ⟨structure_score.1,
        structure_score.1 * e.weights.structure_ / 100, structure_score.2⟩
      momentum := ⟨momentum.1, momentum.1 * e.weights.momentum / 100, momentum.2⟩
      candle_patterns := ⟨pattern.1, pattern.1 * e.weights.candle_patterns / 100, pattern.2⟩
      trendline := ⟨trendline.1, trendline.1 * e.weights.trendline / 100, trendline.2⟩
      risk_reward := ⟨rr.1, rr.1 * e.weights.risk_reward / 100, rr.2⟩ }
  (comps.trend_alignment.weighted + comps.structure_.weighted +
    comps.momentum.weighted + comps.candle_patterns.weighted +
    comps.trendline.weighted + comps.risk_reward.weighted, comps)

/-- A constant pattern scorer used for concrete instantiations. -/
def zeroPatternScorer : List PCandle → String → ℚ → Option ℚ → ℚ × List String :=
  fun _ _ _ _ => (0, [])

/-- A constant trendline scorer used for concrete instantiations. -/
def zeroTrendlineScorer : List PCandle → ℚ → String → ℚ × String :=
  fun _ _ _ => (0, "none")


/-! ## `src/bot/data_engine.py` — `DataEngine._handle_kline_message`

The candle store `self.candles` is the dict
`{symbol: {timeframe: deque(maxlen=500)}}`, embedded as a total function
from symbol and timeframe to the stored list (missing keys default to the
empty buffer, matching the `defaultdict`). -/

/-- `config.MAX_CANDLES_STORED` -/
def MAX_CANDLES_STORED : ℕ := 500

/-- A stored candle record as built by `_handle_kline_message`
(`timestamp` is the kline open time). -/
structure StoredCandle where
  timestamp : ℤ
  open_price : ℚ
  high : ℚ
  low : ℚ
  close : ℚ
  volume : ℚ
  close_time : ℤ
  is_closed : Bool

/-- The `data` payload of a combined-stream kline message: event type
`e`, symbol `s`, interval `i`, and the kline fields of `data['k']`
(`x` is the is-closed flag, `t`/`T` the open/close times). -/
structure KlineMsg where
  e : String
  s : String
  i : String
  x : Bool
  t : ℤ
  o : ℚ
  h : ℚ
  l : ℚ
  c : ℚ
  v : ℚ
  T : ℤ

/-- `DataEngine._handle_kline_message`: ignore non-kline and non-closed
messages, otherwise build the candle record and `append` it to the
symbol/interval buffer.  The append is unconditional — no same-open-time
replacement is attempted. -/
def DataEngine.handle_kline_message
    (store : String → String → List StoredCandle) (m : KlineMsg) :
    String → String → List StoredCandle :=
  if m.e ≠ "kline" then store
  else if m.x = false then store
  else
    let candle : StoredCandle := ⟨m.t, m.o, m.h, m.l, m.c, m.v, m.T, true⟩
    fun sym tf =>
      if sym = m.s ∧ tf = m.i then
        appendBounded (store sym tf) candle MAX_CANDLES_STORED
      else store sym tf

/-! ## `src/bot/market_data.py` — `MarketDataManager.update_candle`

The per-`(symbol, timeframe)` deque update performed under the lock:
non-closed klines are ignored; a record whose open time equals the last
stored candle's open time replaces that last candle in place, anything
else is appended.  `config.MAX_CANDLES_PER_TIMEFRAME` is not part of the
sources, so the bound is a parameter. -/

/-- `MarketDataManager.update_candle`, restricted to its effect on one
candle queue. -/
def MarketData.update_candle (queue : List StoredCandle) (is_closed : Bool)
    (candle : StoredCandle) (maxlen : ℕ) : List StoredCandle :=
  if is_closed = false then queue
  else
    match queue.getLast? with
    | some last =>
        if last.timestamp = candle.timestamp then queue.dropLast ++ [candle]
        else appendBounded queue candle maxlen
    | none => appendBounded queue candle maxlen

/-! ## `src/bot/memory_engine.py` — `AdaptiveMemory`

State fields of the class (the SQLite persistence, logging and the calls
into the external `risk_manager` collaborator are I/O and do not change
this state).  `datetime.utcnow()` is the explicit `now : ℚ` (seconds);
`timedelta(hours=h)` is `h * 60 * 60`. -/

/-- One value of `symbol_memory`:
`{'last_result', 'consecutive_losses', 'last_10'}`. -/
structure SymbolMem where
  last_result : Bool
  consecutive_losses : ℕ
  last_10 : List Bool

/-- Update a Python dict embedded as an insertion-ordered association
list: modify the value in place when the key exists, else append the
default entry. -/
def updateAssoc {α : Type} (l : List (String × α)) (k : String) (f : α → α)
    (d : α) : List (String × α) :=
  match l with
  | [] => [(k, d)]
  | (k1, v) :: t =>
      if k1 = k then (k1, f v) :: t else (k1, v) :: updateAssoc t k f d

structure AdaptiveMemory where
  last_20_results : List Bool
  consecutive_losses : ℕ
  current_drawdown_percent : ℚ
  continuation_results : List Bool
  reversal_results : List Bool
  symbol_memory : List (String × SymbolMem)
  symbol_cooldowns : String → Option ℚ
  trading_paused_until : Option ℚ
  reversal_model_disabled_until : Option ℚ
  initial_capital : ℚ
  current_capital : ℚ
  peak_capital : ℚ

/-- `AdaptiveMemory.__init__` -/
def AdaptiveMemory.init : AdaptiveMemory :=
  ⟨[], 0, 0, [], [], [], fun _ => none, none, none, 1000, 1000, 1000⟩

/-- Winrate of a result list as a percentage
(`sum(results) / len(results) * 100`). -/
def winratePct (l : List Bool) : ℚ :=
  ((l.filter id).length : ℚ) / (l.length : ℚ) * 100

/-- Rule 2 of `_apply_rules`: at 3 or more consecutive losses, pause all
trading for 12 hours from now. -/
def AdaptiveMemory.rule_pause (now : ℚ) (s : AdaptiveMemory) : AdaptiveMemory :=
  if 3 ≤ s.consecutive_losses then
    { s with trading_paused_until := some (now + 12 * 60 * 60) }
  else s

/-- Rule 4 of `_apply_rules`: cool every symbol with 2 or more
consecutive losses for 24 hours from now. -/
def AdaptiveMemory.rule_symbol_cooldowns (now : ℚ) (s : AdaptiveMemory) :
    AdaptiveMemory :=
  let cooldowns : String → Option ℚ := s.symbol_memory.foldl (fun f p =>
      if 2 ≤ p.2.consecutive_losses then
        setKey f p.1 (some (now + 24 * 60 * 60))
      else f)
    s.symbol_cooldowns
  { s with symbol_cooldowns := cooldowns }

/-- Rule 5 of `_apply_rules`: disable the reversal model for 48 hours
when its winrate over at least 10 samples falls below 45%. -/
def AdaptiveMemory.rule_reversal_disable (now : ℚ) (s : AdaptiveMemory) :
    AdaptiveMemory :=
  if 10 ≤ s.reversal_results.length then
    if winratePct s.reversal_results < 45 then
      { s with reversal_model_disabled_until := some (now + 48 * 60 * 60) }
    else s
  else s

/-- The lazy auto-restore of the reversal model at the end of
`_apply_rules`. -/
def AdaptiveMemory.restore_reversal (now : ℚ) (s : AdaptiveMemory) :
    AdaptiveMemory :=
  match s.reversal_model_disabled_until with
  | some u => if u ≤ now then
      { s with reversal_model_disabled_until := none }
    else s
  | none => s

/-- The lazy auto-restore of the global trading pause at the end of
`_apply_rules`. -/
def AdaptiveMemory.restore_pause (now : ℚ) (s : AdaptiveMemory) :
    AdaptiveMemory :=
  match s.trading_paused_until with
  | some u => if u ≤ now then { s with trading_paused_until := none } else s
  | none => s

/-- `AdaptiveMemory._apply_rules`: the state-mutating rules 2, 4 and 5 in
source order, then the two lazy restores.  Rules 1, 3 and 6 act only on
the external risk manager and logs, never on this state. -/
def AdaptiveMemory.apply_rules (now : ℚ) (s : AdaptiveMemory) :
    AdaptiveMemory :=
  AdaptiveMemory.restore_pause now (AdaptiveMemory.restore_reversal now
    (AdaptiveMemory.rule_reversal_disable now
      (AdaptiveMemory.rule_symbol_cooldowns now
        (AdaptiveMemory.rule_pause now s))))

/-- The global-outcome step of `update_after_trade_closed`: push the
result into the rolling 20-window and update the consecutive-loss
counter. -/
def AdaptiveMemory.push_outcome (is_win : Bool) (s : AdaptiveMemory) :
    AdaptiveMemory :=
  { s with
    last_20_results := appendBounded s.last_20_results is_win 20
    consecutive_losses := if is_win then 0 else s.consecutive_losses + 1 }

/-- The capital/drawdown step of `update_after_trade_closed`. -/
def AdaptiveMemory.update_capital (pnl : ℚ) (s : AdaptiveMemory) :
    AdaptiveMemory :=
  let cap := s.current_capital + pnl
  let peak := if s.peak_capital < cap then cap else s.peak_capital
  let dd := if 0 < peak then (peak - cap) / peak * 100
    else s.current_drawdown_percent
  { s with
    current_capital := cap
    peak_capital := peak
    current_drawdown_percent := dd }

/-- The per-model step of `update_after_trade_closed`. -/
def AdaptiveMemory.push_model_outcome (model_type : String) (is_win : Bool)
    (s : AdaptiveMemory) : AdaptiveMemory :=
  if model_type = "continuation" then
    { s with continuation_results :=
        appendBounded s.continuation_results is_win 20 }
  else if model_type = "reversal" then
    { s with reversal_results :=
        appendBounded s.reversal_results is_win 20 }
  else s

/-- The `symbol_memory` step of `update_after_trade_closed`. -/
def AdaptiveMemory.push_symbol_outcome (symbol : String) (is_win : Bool)
    (s : AdaptiveMemory) : AdaptiveMemory :=
  let mem := updateAssoc s.symbol_memory symbol
      (fun m => ⟨is_win, if is_win then 0 else m.consecutive_losses + 1,
        appendBounded m.last_10 is_win 10⟩)
      ⟨is_win, if is_win then 0 else 1, [is_win]⟩
  { s with symbol_memory := mem }

/-- `AdaptiveMemory.update_after_trade_closed`: the outcome, capital,
per-model and per-symbol updates in source order, then `_apply_rules`. -/
def AdaptiveMemory.update_after_trade_closed (now : ℚ)
    (symbol model_type : String) (pnl : ℚ) (s : AdaptiveMemory) :
    AdaptiveMemory :=
  let is_win := decide (0 < pnl)
  AdaptiveMemory.apply_rules now
    (AdaptiveMemory.push_symbol_outcome symbol is_win
      (AdaptiveMemory.push_model_outcome model_type is_win
        (AdaptiveMemory.update_capital pnl
          (AdaptiveMemory.push_outcome is_win s))))


/-! ## `src/bot/structure_engine.py` — `StructureEngine`

Candles are `PCandle` records (`dict` fields `open`/`high`/`low`/`close`
read through `float(...)`). -/

inductive TrendDirection
  | bullish
  | bearish
  | neutral
  deriving DecidableEq

inductive StructureEvent
  | CHOCH
  | BOS
  | NONE
  deriving DecidableEq

/-- `structure_engine.SwingPoint` -/
structure SwingPoint where
  price : ℚ
  index : ℕ
  is_high : Bool
  deriving DecidableEq

/-- An out-of-range default swing point (never reached in-bounds). -/
def spdflt : SwingPoint := ⟨0, 0, true⟩

/-- The loop body test of `_find_swing_highs` at index `i`: every candle
strictly within `lookback` positions to the left and to the right has a
strictly smaller high (a tie sets `is_swing_high = False`). -/
def StructureEngine.isSwingHighAt (candles : List PCandle) (lookback i : ℕ) :
    Bool :=
  ((pyRange (i - lookback) i).all fun j =>
    decide ((candles.getD j cdflt).high < (candles.getD i cdflt).high)) &&
  ((pyRange (i + 1) (min (i + lookback + 1) candles.length)).all fun j =>
    decide ((candles.getD j cdflt).high < (candles.getD i cdflt).high))

/-- `StructureEngine._find_swing_highs` -/
def StructureEngine.find_swing_highs (candles : List PCandle)
    (lookback : ℕ := 5) : List SwingPoint :=
  (pyRange lookback (candles.length - lookback)).filterMap fun i =>
    if StructureEngine.isSwingHighAt candles lookback i then
      some ⟨(candles.getD i cdflt).high, i, true⟩
    else none

/-- The loop body test of `_find_swing_lows` at index `i`. -/
def StructureEngine.isSwingLowAt (candles : List PCandle) (lookback i : ℕ) :
    Bool :=
  ((pyRange (i - lookback) i).all fun j =>
    decide ((candles.getD i cdflt).low < (candles.getD j cdflt).low)) &&
  ((pyRange (i + 1) (min (i + lookback + 1) candles.length)).all fun j =>
    decide ((candles.getD i cdflt).low < (candles.getD j cdflt).low))

/-- `StructureEngine._find_swing_lows` -/
def StructureEngine.find_swing_lows (candles : List PCandle)
    (lookback : ℕ := 5) : List SwingPoint :=
  (pyRange lookback (candles.length - lookback)).filterMap fun i =>
    if StructureEngine.isSwingLowAt candles lookback i then
      some ⟨(candles.getD i cdflt).low, i, false⟩
    else none

/-- Python `lst[-1]` on swing-point lists. -/
def pyLast (l : List SwingPoint) : SwingPoint := l.getD (l.length - 1) spdflt

/-- Python `lst[-2]` on swing-point lists. -/
def pyPenult (l : List SwingPoint) : SwingPoint := l.getD (l.length - 2) spdflt

/-- `StructureEngine._determine_trend` -/
def StructureEngine.determine_trend (swing_highs swing_lows : List SwingPoint) :
    TrendDirection :=
  if swing_highs.length < 2 ∨ swing_lows.length < 2 then .neutral
  else
    let has_hh := (pyPenult swing_highs).price < (pyLast swing_highs).price
    let has_hl := (pyPenult swing_lows).price < (pyLast swing_lows).price
    let has_lh := (pyLast swing_highs).price < (pyPenult swing_highs).price
    let has_ll := (pyLast swing_lows).price < (pyPenult swing_lows).price
    if has_hh ∧ has_hl then .bullish
    else if has_lh ∧ has_ll then .bearish
    else .neutral

/-- `StructureEngine._detect_structure_break` -/
def StructureEngine.detect_structure_break (candles : List PCandle)
    (swing_highs swing_lows : List SwingPoint)
    (current_trend : TrendDirection) : StructureEvent :=
  if candles.length < 10 then .NONE
  else if swing_highs = [] ∨ swing_lows = [] then .NONE
  else
    let recent_close := (candles.getD (candles.length - 1) cdflt).close
    if current_trend = .bullish then
      if recent_close < (pyLast swing_lows).price then .CHOCH else .NONE
    else if current_trend = .bearish then
      if (pyLast swing_highs).price < recent_close then .CHOCH else .NONE
    else .NONE

/-- `StructureEngine._is_structure_intact` -/
def StructureEngine.is_structure_intact
    (swing_highs swing_lows : List SwingPoint) (trend : TrendDirection) :
    Bool :=
  if swing_highs.length < 2 ∨ swing_lows.length < 2 then false
  else if trend = .bullish then
    decide ((pyPenult swing_lows).price < (pyLast swing_lows).price)
  else if trend = .bearish then
    decide ((pyLast swing_highs).price < (pyPenult swing_highs).price)
  else false

/-- `StructureEngine._has_higher_highs` -/
def StructureEngine.has_higher_highs (swing_highs : List SwingPoint) : Bool :=
  if swing_highs.length < 2 then false
  else decide ((pyPenult swing_highs).price < (pyLast swing_highs).price)

/-- `StructureEngine._has_lower_lows` -/
def StructureEngine.has_lower_lows (swing_lows : List SwingPoint) : Bool :=
  if swing_lows.length < 2 then false
  else decide ((pyLast swing_lows).price < (pyPenult swing_lows).price)

/-- `StructureEngine._has_higher_lows` -/
def StructureEngine.has_higher_lows (swing_lows : List SwingPoint) : Bool :=
  if swing_lows.length < 2 then false
  else decide ((pyPenult swing_lows).price < (pyLast swing_lows).price)

/-- `StructureEngine._has_lower_highs` -/
def StructureEngine.has_lower_highs (swing_highs : List SwingPoint) : Bool :=
  if swing_highs.length < 2 then false
  else decide ((pyLast swing_highs).price < (pyPenult swing_highs).price)

/-- The structure dict returned by `analyze_structure`. -/
structure StructureState where
  timeframe : Option String
  trend : TrendDirection
  swing_highs : List SwingPoint
  swing_lows : List SwingPoint
  recent_high : Option SwingPoint
  recent_low : Option SwingPoint
  last_break : StructureEvent
  structure_intact : Bool
  has_higher_highs : Bool
  has_lower_lows : Bool
  has_higher_lows : Bool
  has_lower_highs : Bool

/-- `StructureEngine._empty_structure` -/
def StructureEngine.empty_structure : StructureState :=
  ⟨none, .neutral, [], [], none, none, .NONE, false, false, false, false, false⟩

/-- `StructureEngine.analyze_structure`: the empty/neutral state below 20
candles, otherwise swing detection, trend, break and intact flags. -/
def StructureEngine.analyze_structure (candles : List PCandle)
    (timeframe : String) : StructureState :=
  if candles.length < 20 then StructureEngine.empty_structure
  else
    let swing_highs := StructureEngine.find_swing_highs candles 5
    let swing_lows := StructureEngine.find_swing_lows candles 5
    let trend := StructureEngine.determine_trend swing_highs swing_lows
    { timeframe := some timeframe
      trend := trend
      swing_highs := swing_highs
      swing_lows := swing_lows
      recent_high := swing_highs.getLast?
      recent_low := swing_lows.getLast?
      last_break := StructureEngine.detect_structure_break candles swing_highs
        swing_lows trend
      structure_intact := StructureEngine.is_structure_intact swing_highs
        swing_lows trend
      has_higher_highs := StructureEngine.has_higher_highs swing_highs
      has_lower_lows := StructureEngine.has_lower_lows swing_lows
      has_higher_lows := StructureEngine.has_higher_lows swing_lows
      has_lower_highs := StructureEngine.has_lower_highs swing_highs }

/-- `StructureEngine.check_alignment` -/
def StructureEngine.check_alignment (structure_1d structure_4h : StructureState) :
    Bool :=
  decide (structure_1d.trend = structure_4h.trend) &&
    decide (structure_1d.trend ≠ .neutral)

/-! ## `src/bot/utils.py` — `calculate_atr` (the variant the regime
engine uses) -/

/-- `utils.calculate_atr`: mean of the true ranges of the last `period`
candles, walking backwards from the most recent candle. -/
def Utils.calculate_atr (candles : List PCandle) (period : ℕ := 14) : ℚ :=
  if candles.length < period + 1 then 0
  else
    let r := candles.reverse
    let trs := (pyRange 1 (min candles.length (period + 1))).map fun i =>
      let h := (r.getD (i - 1) cdflt).high
      let lo := (r.getD (i - 1) cdflt).low
      let pc := (r.getD i cdflt).close
      max (h - lo) (max |h - pc| |lo - pc|)
    if trs = [] then 0 else trs.sum / (trs.length : ℚ)

/-! ## `src/bot/regime_engine.py` — `RegimeEngine`

`config.RegimeType` values are the literal strings; the sideway
thresholds come from `config`. -/

/-- `config.RegimeType.TRENDING_CONTINUATION` -/
def RegimeType.TRENDING_CONTINUATION : String := "TRENDING_CONTINUATION"
/-- `config.RegimeType.CONFIRMED_REVERSAL` -/
def RegimeType.CONFIRMED_REVERSAL : String := "CONFIRMED_REVERSAL"
/-- `config.RegimeType.SIDEWAY` -/
def RegimeType.SIDEWAY : String := "SIDEWAY"
/-- `config.SIDEWAY_ATR_THRESHOLD` (0.005) -/
def SIDEWAY_ATR_THRESHOLD : ℚ := 5 / 1000
/-- `config.SIDEWAY_DISPLACEMENT_THRESHOLD` (1.5) -/
def SIDEWAY_DISPLACEMENT_THRESHOLD : ℚ := 3 / 2

/-- `RegimeEngine._is_sideway`: under 50 candles assume sideway; then
low relative ATR, or no higher-high/lower-low pattern, or no recent
(last-10) candle body above 1.5×ATR each short-circuit to sideway. -/
def RegimeEngine.is_sideway (candles_4h : List PCandle) : Bool :=
  if candles_4h.length < 50 then true
  else
    let atr := Utils.calculate_atr candles_4h 14
    let recent_close := (candles_4h.getD (candles_4h.length - 1) cdflt).close
    let atr_percentage := if 0 < recent_close then atr / recent_close else 0
    if atr_percentage < SIDEWAY_ATR_THRESHOLD then true
    else
      let structure4 := StructureEngine.analyze_structure candles_4h "4h"
      if structure4.has_higher_highs = false ∧ structure4.has_lower_lows = false
      then true
      else
        let recent_candles := pyTakeLast candles_4h 10
        let has_displacement := recent_candles.any fun candle =>
          decide (atr * SIDEWAY_DISPLACEMENT_THRESHOLD < candle.body)
        if has_displacement = false then true
        else false

/-- `RegimeEngine._is_confirmed_reversal`: 4h CHoCH, non-neutral 4h
trend, and at least one last-10 candle body above 2×ATR. -/
def RegimeEngine.is_confirmed_reversal (structure_1d structure_4h : StructureState)
    (candles_4h : List PCandle) : Bool :=
  if structure_4h.last_break ≠ StructureEvent.CHOCH then false
  else if structure_4h.trend = TrendDirection.neutral then false
  else if candles_4h.length < 10 then false
  else
    let recent_candles := pyTakeLast candles_4h 10
    let atr := Utils.calculate_atr candles_4h 14
    recent_candles.any fun candle => decide (atr * 2 < candle.body)

/-- `RegimeEngine._is_trending_continuation`: 1d/4h alignment, structure
intact on both, and no 4h CHoCH. -/
def RegimeEngine.is_trending_continuation
    (structure_1d structure_4h : StructureState) : Bool :=
  if StructureEngine.check_alignment structure_1d structure_4h = false then false
  else if structure_1d.structure_intact = false then false
  else if structure_4h.structure_intact = false then false
  else if structure_4h.last_break = StructureEvent.CHOCH then false
  else true

/-- `RegimeEngine.classify_regime`: sideway short-circuit first, then
confirmed reversal, then trending continuation, defaulting to sideway. -/
def RegimeEngine.classify_regime
    (candles_1d candles_4h candles_30m : List PCandle) : String :=
  if RegimeEngine.is_sideway candles_4h then RegimeType.SIDEWAY
  else
    let structure_1d := StructureEngine.analyze_structure candles_1d "1d"
    let structure_4h := StructureEngine.analyze_structure candles_4h "4h"
    if RegimeEngine.is_confirmed_reversal structure_1d structure_4h candles_4h
    then RegimeType.CONFIRMED_REVERSAL
    else if RegimeEngine.is_trending_continuation structure_1d structure_4h
    then RegimeType.TRENDING_CONTINUATION
    else RegimeType.SIDEWAY

/-! ## Theorems about the claims -/

/-- Helper: the ordering-validation block always yields strictly ordered,
correctly signed targets whenever the risk distance is positive. -/
theorem validateTpOrdering_sorted (entry risk : ℚ) (direction : String)
    (tps : ℚ × ℚ × ℚ) (hr : 0 < risk) :
    (direction = "long" →
      entry < (Strategy.validateTpOrdering entry risk direction tps).1 ∧
      (Strategy.validateTpOrdering entry risk direction tps).1 <
        (Strategy.validateTpOrdering entry risk direction tps).2.1 ∧
      (Strategy.validateTpOrdering entry risk direction tps).2.1 <
        (Strategy.validateTpOrdering entry risk direction tps).2.2) ∧
    (direction ≠ "long" →
      (Strategy.validateTpOrdering entry risk direction tps).2.2 <
        (Strategy.validateTpOrdering entry risk direction tps).2.1 ∧
      (Strategy.validateTpOrdering entry risk direction tps).2.1 <
        (Strategy.validateTpOrdering entry risk direction tps).1 ∧
      (Strategy.validateTpOrdering entry risk direction tps).1 < entry) := by
  obtain ⟨t1, t2, t3⟩ := tps
  constructor
  · intro hd
    simp only [Strategy.validateTpOrdering, hd, ite_true, if_pos rfl]
    split_ifs with hord <;>
      (refine ⟨?_, ?_, ?_⟩ <;> dsimp only <;> linarith)
  · intro hd
    simp only [Strategy.validateTpOrdering, hd, ite_false, if_neg hd]
    split_ifs with hord <;>
      (refine ⟨?_, ?_, ?_⟩ <;> dsimp only <;> linarith)

/-- C1, counterexample: for a long from entry 100 with stop 90 and a
structural internal-liquidity target at 50, `RiskManager.calculate_targets`
returns the inverted triple (110, 50, 130) unchanged — the structural
target below the entry is not replaced by the R-multiple fallback, and the
returned targets are not strictly increasing. -/
theorem C1_counterexample :
    (RiskManager.calculate_targets 100 90 "long"
      (some { internal := { high := some 50 }, external := {} })).tp1 = 110 ∧
    (RiskManager.calculate_targets 100 90 "long"
      (some { internal := { high := some 50 }, external := {} })).tp2 = 50 ∧
    (RiskManager.calculate_targets 100 90 "long"
      (some { internal := { high := some 50 }, external := {} })).tp3 = 130 ∧
    ¬((RiskManager.calculate_targets 100 90 "long"
      (some { internal := { high := some 50 }, external := {} })).tp1 <
      (RiskManager.calculate_targets 100 90 "long"
        (some { internal := { high := some 50 }, external := {} })).tp2) := by
  have habs : |(100 : ℚ) - 90| = 10 := by
    rw [abs_of_nonneg] <;> norm_num
  simp only [RiskManager.calculate_targets, truthy, habs, TP1_RR, TP2_RR, TP3_RR]
  norm_num

/-- C1, amended: `RiskManager.calculate_targets` applies structural
liquidity overrides without any ordering validation and can return
inverted targets; the ordering validation with wholesale R-multiple
fallback lives in `Strategy._calculate_tp_targets`, which, whenever
entry ≠ stop, returns targets strictly ordered away from the entry
(strictly increasing above entry for longs, strictly decreasing below
entry for shorts) for every set of structural levels. -/
theorem C1_tp_ordering_fallback (entry stop_loss : ℚ) (direction : String)
    (sr_levels : List ℚ) (h : entry ≠ stop_loss) :
    (direction = "long" →
      entry < (Strategy.calculate_tp_targets entry stop_loss direction sr_levels).1 ∧
      (Strategy.calculate_tp_targets entry stop_loss direction sr_levels).1 <
        (Strategy.calculate_tp_targets entry stop_loss direction sr_levels).2.1 ∧
      (Strategy.calculate_tp_targets entry stop_loss direction sr_levels).2.1 <
        (Strategy.calculate_tp_targets entry stop_loss direction sr_levels).2.2) ∧
    (direction ≠ "long" →
      (Strategy.calculate_tp_targets entry stop_loss direction sr_levels).2.2 <
        (Strategy.calculate_tp_targets entry stop_loss direction sr_levels).2.1 ∧
      (Strategy.calculate_tp_targets entry stop_loss direction sr_levels).2.1 <
        (Strategy.calculate_tp_targets entry stop_loss direction sr_levels).1 ∧
      (Strategy.calculate_tp_targets entry stop_loss direction sr_levels).1 < entry) := by
  have hr : 0 < |entry - stop_loss| := abs_pos.mpr (sub_ne_zero.mpr h)
  have key := validateTpOrdering_sorted entry |entry - stop_loss| direction
    (Strategy.tpLadder entry |entry - stop_loss| direction sr_levels) hr
  unfold Strategy.calculate_tp_targets
  exact key

/-- Witness for C1: the amended theorem applied to the concrete long setup
entry 100, stop 90 with no structural levels. -/
theorem C1_tp_ordering_fallback_witness :
    (100 : ℚ) < (Strategy.calculate_tp_targets 100 90 "long" []).1 ∧
    (Strategy.calculate_tp_targets 100 90 "long" []).1 <
      (Strategy.calculate_tp_targets 100 90 "long" []).2.1 ∧
    (Strategy.calculate_tp_targets 100 90 "long" []).2.1 <
      (Strategy.calculate_tp_targets 100 90 "long" []).2.2 :=
  (C1_tp_ordering_fallback 100 90 "long" [] (by norm_num)).1 rfl

/-- C5, counterexample: with a cap of 0 (a non-positive limit) and zero
signals registered today, `check_daily_limit` returns `false`, not `true`:
a non-positive cap blocks all signals instead of meaning unlimited. -/
theorem C5_counterexample :
    (RiskManager.check_daily_limit ⟨0, 0⟩ 0 (some 0)).1 = false := by
  decide

/-- C5, amended: `check_daily_limit` allows a signal exactly when the
day's (possibly reset) signal count is strictly below the limit; hence for
every non-positive limit it returns `false` for every state and date —
a cap ≤ 0 disables signalling entirely rather than meaning unlimited. -/
theorem C5_nonpositive_cap_blocks (s : RiskManagerState)
    (current_date limit : ℤ) (h : limit ≤ 0) :
    (RiskManager.check_daily_limit s current_date (some limit)).1 = false := by
  simp only [RiskManager.check_daily_limit, Option.getD]
  split_ifs <;> simp_all <;> omega

/-- Witness for C5: the amended theorem at cap 0 on the fresh state. -/
theorem C5_nonpositive_cap_blocks_witness :
    (RiskManager.check_daily_limit ⟨0, 1⟩ 1 (some 0)).1 = false :=
  C5_nonpositive_cap_blocks ⟨0, 1⟩ 1 0 (by norm_num)

/-- C7, confirmed: from the freshly constructed deduplicator (default
configuration), after `record_signal` for a key at time `t`, an immediate
`can_send_signal` for the same key at `t` returns `false` with a cooldown
reason, and with nothing else recorded, `can_send_signal` at
`t + signal_cooldown` (1800 s) returns `true`. -/
theorem C7_record_then_cooldown (symbol direction setup_type : String) (t : ℚ) :
    ((SignalDeduplicator.init.record_signal symbol direction setup_type none t).can_send_signal
        symbol direction setup_type t).1 = false ∧
    ((SignalDeduplicator.init.record_signal symbol direction setup_type none t).can_send_signal
        symbol direction setup_type t).2.isCooldown = true ∧
    ((SignalDeduplicator.init.record_signal symbol direction setup_type none t).can_send_signal
        symbol direction setup_type (t + 1800)).1 = true := by
  simp only [SignalDeduplicator.init, SignalDeduplicator.record_signal,
    SignalDeduplicator.can_send_signal, setKey, if_pos rfl]
  norm_num [SendReason.isCooldown]

/-- C10, confirmed: the per-symbol active-signal counters of
`SignalDeduplicator` never go negative: `record_signal` increments the
symbol's count by exactly one, `resolve_signal` decrements it only when it
is strictly positive, `resolve_signal` on a symbol with no active signals
leaves the whole state unchanged, and both operations preserve
nonnegativity of every counter. -/
theorem C10_active_signal_counters (d : SignalDeduplicator)
    (symbol direction setup_type : String) (w : Option ℤ) (t : ℚ) :
    ((d.record_signal symbol direction setup_type w t).active_signals symbol =
      d.active_signals symbol + 1) ∧
    (0 < d.active_signals symbol →
      (d.resolve_signal symbol).active_signals symbol = d.active_signals symbol - 1) ∧
    (d.active_signals symbol ≤ 0 → d.resolve_signal symbol = d) ∧
    ((∀ s, 0 ≤ d.active_signals s) →
      (∀ s, 0 ≤ (d.record_signal symbol direction setup_type w t).active_signals s) ∧
      (∀ s, 0 ≤ (d.resolve_signal symbol).active_signals s)) := by
  refine ⟨?_, ?_, ?_, ?_⟩
  · cases w <;> simp [SignalDeduplicator.record_signal, setKey]
  · intro hpos
    simp [SignalDeduplicator.resolve_signal, hpos, setKey]
  · intro hle
    have : ¬ 0 < d.active_signals symbol := by omega
    simp [SignalDeduplicator.resolve_signal, this]
  · intro hnn
    constructor
    · intro s
      have h1 := hnn s
      have h2 := hnn symbol
      cases w <;> simp only [SignalDeduplicator.record_signal, setKey] <;>
        split <;> omega
    · intro s
      by_cases hpos : 0 < d.active_signals symbol
      · simp only [SignalDeduplicator.resolve_signal, if_pos hpos, setKey]
        split
        · omega
        · exact hnn s
      · simp only [SignalDeduplicator.resolve_signal, if_neg hpos]
        exact hnn s

/-- Witness for C10: the invariant theorem instantiated on the fresh
deduplicator after one recorded signal, discharging both conditional
clauses at a strictly positive counter. -/
theorem C10_active_signal_counters_witness :
    ((SignalDeduplicator.init.record_signal "BTCUSDT" "long" "continuation" none 0).resolve_signal
      "BTCUSDT").active_signals "BTCUSDT" =
      (SignalDeduplicator.init.record_signal "BTCUSDT" "long" "continuation" none 0).active_signals
        "BTCUSDT" - 1 :=
  (C10_active_signal_counters
    (SignalDeduplicator.init.record_signal "BTCUSDT" "long" "continuation" none 0)
    "BTCUSDT" "long" "continuation" none 0).2.1 (by decide)

/-- C2, counterexample: `ScoringEngine.__init__` accepts a weight set
whose sum is 99 without any failure — the engine is constructed and uses
those weights, so no load-time sum validation exists. -/
theorem C2_counterexample :
    (ScoringEngine.init ⟨10, 20, 30, 5, 5, 29⟩ zeroPatternScorer
      zeroTrendlineScorer 20 (6/5)).weights = ⟨10, 20, 30, 5, 5, 29⟩ ∧
    scoreWeightsSum ⟨10, 20, 30, 5, 5, 29⟩ ≠ 100 := by
  refine ⟨rfl, ?_⟩
  norm_num [scoreWeightsSum]

/-- C2, amended: the two shipped weight sets (`CONTINUATION_WEIGHTS`,
`REVERSAL_WEIGHTS`) do each sum to exactly 100, but this is a fact about
the shipped constants only: no load-time validation enforces it —
`ScoringEngine.__init__` accepts any weight set unchanged, never
failing. -/
theorem C2_weight_sums :
    weightSum CONTINUATION_WEIGHTS = 100 ∧ weightSum REVERSAL_WEIGHTS = 100 ∧
    ∀ w ps ts mc mv, (ScoringEngine.init w ps ts mc mv).weights = w := by
  refine ⟨by decide, by decide, fun w ps ts mc mv => rfl⟩

/-- C6, counterexample: with every weight set to 100 (sum 600), the total
score of an aligned-trend long evaluates to 300 — the returned total is
not clamped to [0, 100]. -/
theorem C6_counterexample :
    (ScoringEngine.calculate_total_score
      (ScoringEngine.init ⟨100, 100, 100, 100, 100, 100⟩ zeroPatternScorer
        zeroTrendlineScorer 20 (6/5))
      "up" "up" "up" [] 1 "long" none none 1 none none none).1 = 300 ∧
    ¬((ScoringEngine.calculate_total_score
      (ScoringEngine.init ⟨100, 100, 100, 100, 100, 100⟩ zeroPatternScorer
        zeroTrendlineScorer 20 (6/5))
      "up" "up" "up" [] 1 "long" none none 1 none none none).1 ≤ 100) := by
  have : (ScoringEngine.calculate_total_score
      (ScoringEngine.init ⟨100, 100, 100, 100, 100, 100⟩ zeroPatternScorer
        zeroTrendlineScorer 20 (6/5))
      "up" "up" "up" [] 1 "long" none none 1 none none none).1 = 300 := by
    norm_num [ScoringEngine.calculate_total_score, ScoringEngine.init,
      ScoringEngine.score_trend_alignment, ScoringEngine.score_structure,
      ScoringEngine.score_momentum, ScoringEngine.patternComponent,
      ScoringEngine.trendlineComponent, ScoringEngine.riskRewardScore,
      CandlePatterns.calculate_atr, truthy, pyTakeLast]
  rw [this]
  norm_num

/-- C6, amended: the total returned by `calculate_total_score` equals the
plain weighted sum Σ(component_score × weight)/100 of the six component
scores, with no clamping applied — so it stays within [0, 100] only for
weight sets that are nonnegative and sum to at most 100, not for every
weight configuration. -/
theorem C6_total_is_weighted_sum (e : ScoringEngine) (t30 t1h t4h : String)
    (candles : List PCandle) (price : ℚ) (direction : String)
    (sup res : Option ℚ) (vol : ℚ) (entry stop tp : Option ℚ) :
    (e.calculate_total_score t30 t1h t4h candles price direction sup res vol
        entry stop tp).1 =
      (ScoringEngine.score_trend_alignment t30 t1h t4h direction).1 *
          e.weights.trend_alignment / 100 +
      (e.score_structure price sup res (CandlePatterns.calculate_atr candles 14)
          direction vol).1 * e.weights.structure_ / 100 +
      (ScoringEngine.score_momentum candles direction 5).1 *
          e.weights.momentum / 100 +
      (e.patternComponent candles direction
          (CandlePatterns.calculate_atr candles 14)
          (if direction = "long" then sup else res)).1 *
          e.weights.candle_patterns / 100 +
      (e.trendlineComponent candles price direction).1 *
          e.weights.trendline / 100 +
      (ScoringEngine.riskRewardScore entry stop tp).1 *
          e.weights.risk_reward / 100 := by
  simp only [ScoringEngine.calculate_total_score]

/-- C3, counterexample: delivering the same closed-candle record (open
time 100) twice to `DataEngine._handle_kline_message` leaves two candles
with open time 100 in the store — the second delivery is appended, not an
idempotent in-place replacement. -/
theorem C3_counterexample :
    ((DataEngine.handle_kline_message
        (DataEngine.handle_kline_message (fun _ _ => [])
          ⟨"kline", "BTCUSDT", "30m", true, 100, 1, 2, 1, 2, 10, 199⟩)
        ⟨"kline", "BTCUSDT", "30m", true, 100, 1, 2, 1, 2, 10, 199⟩)
      "BTCUSDT" "30m").map StoredCandle.timestamp = [100, 100] ∧
    ¬ (((DataEngine.handle_kline_message
        (DataEngine.handle_kline_message (fun _ _ => [])
          ⟨"kline", "BTCUSDT", "30m", true, 100, 1, 2, 1, 2, 10, 199⟩)
        ⟨"kline", "BTCUSDT", "30m", true, 100, 1, 2, 1, 2, 10, 199⟩)
      "BTCUSDT" "30m").map StoredCandle.timestamp).Nodup := by
  have h : ((DataEngine.handle_kline_message
        (DataEngine.handle_kline_message (fun _ _ => [])
          ⟨"kline", "BTCUSDT", "30m", true, 100, 1, 2, 1, 2, 10, 199⟩)
        ⟨"kline", "BTCUSDT", "30m", true, 100, 1, 2, 1, 2, 10, 199⟩)
      "BTCUSDT" "30m").map StoredCandle.timestamp = [100, 100] := by
    simp [DataEngine.handle_kline_message, appendBounded, MAX_CANDLES_STORED]
  rw [h]
  refine ⟨rfl, ?_⟩
  decide

/-- C3, amended: `DataEngine._handle_kline_message` appends every closed
candle record unconditionally, so a record whose open time already occurs
in the store adds a second entry with that open time (the occurrence
count increases by one); the idempotent in-place replacement exists only
in the `MarketDataManager.update_candle` variant, and only when the
incoming open time equals the open time of the most recently stored
candle — otherwise that variant appends too. -/
theorem C3_append_vs_replace (store : String → String → List StoredCandle)
    (m : KlineMsg) (hm : m.e = "kline") (hx : m.x = true)
    (hlen : (store m.s m.i).length + 1 ≤ MAX_CANDLES_STORED) :
    (∀ ts : ℤ,
      (((DataEngine.handle_kline_message store m) m.s m.i).map
          StoredCandle.timestamp).count ts =
        (((store m.s m.i)).map StoredCandle.timestamp).count ts +
          (if ts = m.t then 1 else 0)) ∧
    (∀ (q : List StoredCandle) (c : StoredCandle) (maxlen : ℕ)
        (last : StoredCandle), q.getLast? = some last →
      (last.timestamp = c.timestamp →
        MarketData.update_candle q true c maxlen = q.dropLast ++ [c]) ∧
      (last.timestamp ≠ c.timestamp →
        MarketData.update_candle q true c maxlen = appendBounded q c maxlen)) := by
  constructor
  · intro ts
    have hstep : (DataEngine.handle_kline_message store m) m.s m.i =
        appendBounded (store m.s m.i) ⟨m.t, m.o, m.h, m.l, m.c, m.v, m.T, true⟩
          MAX_CANDLES_STORED := by
      simp [DataEngine.handle_kline_message, hm, hx]
    rw [hstep, appendBounded, if_pos hlen]
    by_cases hts : ts = m.t
    · subst hts
      simp [List.count_append, List.count_cons]
    · simp [List.count_append, List.count_cons, hts]
  · intro q c maxlen last hlast
    constructor
    · intro heq
      simp [MarketData.update_candle, hlast, heq]
    · intro hne
      simp [MarketData.update_candle, hlast, hne]

/-- Witness for C3: the amended theorem applied to the empty store and a
concrete closed kline message, counting its open time after delivery. -/
theorem C3_append_vs_replace_witness :
    (((DataEngine.handle_kline_message (fun _ _ => [])
        ⟨"kline", "BTCUSDT", "30m", true, 100, 1, 2, 1, 2, 10, 199⟩)
      "BTCUSDT" "30m").map StoredCandle.timestamp).count 100 =
    ((([] : List StoredCandle)).map StoredCandle.timestamp).count 100 +
      (if (100 : ℤ) = 100 then 1 else 0) :=
  (C3_append_vs_replace (fun _ _ => [])
    ⟨"kline", "BTCUSDT", "30m", true, 100, 1, 2, 1, 2, 10, 199⟩
    rfl rfl (by norm_num [MAX_CANDLES_STORED])).1 100


/-- The outcome step sets the consecutive-loss counter. -/
@[simp] theorem AdaptiveMemory.push_outcome_consec (iw : Bool) (s : AdaptiveMemory) :
    (AdaptiveMemory.push_outcome iw s).consecutive_losses =
      (if iw then 0 else s.consecutive_losses + 1) := rfl

/-- The outcome step leaves the pause deadline alone. -/
@[simp] theorem AdaptiveMemory.push_outcome_paused (iw : Bool) (s : AdaptiveMemory) :
    (AdaptiveMemory.push_outcome iw s).trading_paused_until =
      s.trading_paused_until := rfl

/-- The capital step leaves the consecutive-loss counter alone. -/
@[simp] theorem AdaptiveMemory.update_capital_consec (pnl : ℚ) (s : AdaptiveMemory) :
    (AdaptiveMemory.update_capital pnl s).consecutive_losses =
      s.consecutive_losses := rfl

/-- The capital step leaves the pause deadline alone. -/
@[simp] theorem AdaptiveMemory.update_capital_paused (pnl : ℚ) (s : AdaptiveMemory) :
    (AdaptiveMemory.update_capital pnl s).trading_paused_until =
      s.trading_paused_until := rfl

/-- The per-model step leaves the consecutive-loss counter alone. -/
@[simp] theorem AdaptiveMemory.push_model_consec (mt : String) (iw : Bool)
    (s : AdaptiveMemory) :
    (AdaptiveMemory.push_model_outcome mt iw s).consecutive_losses =
      s.consecutive_losses := by
  unfold AdaptiveMemory.push_model_outcome
  split_ifs <;> rfl

/-- The per-model step leaves the pause deadline alone. -/
@[simp] theorem AdaptiveMemory.push_model_paused (mt : String) (iw : Bool)
    (s : AdaptiveMemory) :
    (AdaptiveMemory.push_model_outcome mt iw s).trading_paused_until =
      s.trading_paused_until := by
  unfold AdaptiveMemory.push_model_outcome
  split_ifs <;> rfl

/-- The per-symbol step leaves the consecutive-loss counter alone. -/
@[simp] theorem AdaptiveMemory.push_symbol_consec (sym : String) (iw : Bool)
    (s : AdaptiveMemory) :
    (AdaptiveMemory.push_symbol_outcome sym iw s).consecutive_losses =
      s.consecutive_losses := rfl

/-- The per-symbol step leaves the pause deadline alone. -/
@[simp] theorem AdaptiveMemory.push_symbol_paused (sym : String) (iw : Bool)
    (s : AdaptiveMemory) :
    (AdaptiveMemory.push_symbol_outcome sym iw s).trading_paused_until =
      s.trading_paused_until := rfl

/-- Rule 2 leaves the consecutive-loss counter alone. -/
@[simp] theorem AdaptiveMemory.rule_pause_consec (now : ℚ) (s : AdaptiveMemory) :
    (AdaptiveMemory.rule_pause now s).consecutive_losses =
      s.consecutive_losses := by
  unfold AdaptiveMemory.rule_pause
  split_ifs <;> rfl

/-- Rule 2 sets the pause deadline at 3 or more consecutive losses. -/
@[simp] theorem AdaptiveMemory.rule_pause_paused (now : ℚ) (s : AdaptiveMemory) :
    (AdaptiveMemory.rule_pause now s).trading_paused_until =
      (if 3 ≤ s.consecutive_losses then some (now + 12 * 60 * 60)
       else s.trading_paused_until) := by
  unfold AdaptiveMemory.rule_pause
  split_ifs <;> rfl

/-- Rule 4 leaves the consecutive-loss counter alone. -/
@[simp] theorem AdaptiveMemory.rule_symbol_cooldowns_consec (now : ℚ)
    (s : AdaptiveMemory) :
    (AdaptiveMemory.rule_symbol_cooldowns now s).consecutive_losses =
      s.consecutive_losses := rfl

/-- Rule 4 leaves the pause deadline alone. -/
@[simp] theorem AdaptiveMemory.rule_symbol_cooldowns_paused (now : ℚ)
    (s : AdaptiveMemory) :
    (AdaptiveMemory.rule_symbol_cooldowns now s).trading_paused_until =
      s.trading_paused_until := rfl

/-- Rule 5 leaves the consecutive-loss counter alone. -/
@[simp] theorem AdaptiveMemory.rule_reversal_disable_consec (now : ℚ)
    (s : AdaptiveMemory) :
    (AdaptiveMemory.rule_reversal_disable now s).consecutive_losses =
      s.consecutive_losses := by
  unfold AdaptiveMemory.rule_reversal_disable
  split_ifs <;> rfl

/-- Rule 5 leaves the pause deadline alone. -/
@[simp] theorem AdaptiveMemory.rule_reversal_disable_paused (now : ℚ)
    (s : AdaptiveMemory) :
    (AdaptiveMemory.rule_reversal_disable now s).trading_paused_until =
      s.trading_paused_until := by
  unfold AdaptiveMemory.rule_reversal_disable
  split_ifs <;> rfl

/-- The reversal-model restore leaves the consecutive-loss counter alone. -/
@[simp] theorem AdaptiveMemory.restore_reversal_consec (now : ℚ)
    (s : AdaptiveMemory) :
    (AdaptiveMemory.restore_reversal now s).consecutive_losses =
      s.consecutive_losses := by
  unfold AdaptiveMemory.restore_reversal
  cases s.reversal_model_disabled_until <;> dsimp <;> split_ifs <;> rfl

/-- The reversal-model restore leaves the pause deadline alone. -/
@[simp] theorem AdaptiveMemory.restore_reversal_paused (now : ℚ)
    (s : AdaptiveMemory) :
    (AdaptiveMemory.restore_reversal now s).trading_paused_until =
      s.trading_paused_until := by
  unfold AdaptiveMemory.restore_reversal
  cases s.reversal_model_disabled_until <;> dsimp <;> split_ifs <;> rfl

/-- The pause restore clears exactly the expired deadline. -/
@[simp] theorem AdaptiveMemory.restore_pause_paused (now : ℚ)
    (s : AdaptiveMemory) :
    (AdaptiveMemory.restore_pause now s).trading_paused_until =
      (match s.trading_paused_until with
       | some u => if u ≤ now then none else some u
       | none => none) := by
  unfold AdaptiveMemory.restore_pause
  cases h : s.trading_paused_until
  · dsimp
    exact h
  · dsimp
    split_ifs <;> simp [h]

/-- The pause restore leaves the consecutive-loss counter alone. -/
@[simp] theorem AdaptiveMemory.restore_pause_consec (now : ℚ)
    (s : AdaptiveMemory) :
    (AdaptiveMemory.restore_pause now s).consecutive_losses =
      s.consecutive_losses := by
  unfold AdaptiveMemory.restore_pause
  cases s.trading_paused_until <;> dsimp <;> split_ifs <;> rfl

/-- Helper: on any non-winning outcome, `update_after_trade_closed`
increments the consecutive-loss counter, and the pause deadline becomes
exactly 12 h after the outcome as soon as the incremented counter
reaches 3; below 3 the previous deadline is kept, lazily cleared when
expired. -/
theorem AdaptiveMemory.loss_step (now : ℚ) (symbol model_type : String)
    (pnl : ℚ) (s : AdaptiveMemory) (hp : pnl ≤ 0) :
    (AdaptiveMemory.update_after_trade_closed now symbol model_type pnl
      s).consecutive_losses = s.consecutive_losses + 1 ∧
    (AdaptiveMemory.update_after_trade_closed now symbol model_type pnl
      s).trading_paused_until =
      (if 3 ≤ s.consecutive_losses + 1 then some (now + 12 * 60 * 60)
       else match s.trading_paused_until with
            | some u => if u ≤ now then none else some u
            | none => none) := by
  have hwin : (decide ((0:ℚ) < pnl)) = false := decide_eq_false (by linarith)
  have hstay : ¬ (now + 12 * 60 * 60 ≤ now) := by linarith
  unfold AdaptiveMemory.update_after_trade_closed AdaptiveMemory.apply_rules
  rw [hwin]
  constructor
  · simp
  · simp only [AdaptiveMemory.restore_pause_paused,
      AdaptiveMemory.restore_reversal_paused,
      AdaptiveMemory.rule_reversal_disable_paused,
      AdaptiveMemory.rule_symbol_cooldowns_paused,
      AdaptiveMemory.rule_pause_paused, AdaptiveMemory.rule_pause_consec,
      AdaptiveMemory.rule_symbol_cooldowns_consec,
      AdaptiveMemory.rule_reversal_disable_consec,
      AdaptiveMemory.restore_reversal_consec,
      AdaptiveMemory.push_symbol_consec, AdaptiveMemory.push_model_consec,
      AdaptiveMemory.update_capital_consec, AdaptiveMemory.push_outcome_consec,
      AdaptiveMemory.push_symbol_paused, AdaptiveMemory.push_model_paused,
      AdaptiveMemory.update_capital_paused, AdaptiveMemory.push_outcome_paused,
      Bool.false_eq_true, if_false]
    by_cases h3 : 3 ≤ s.consecutive_losses + 1
    · simp [h3, hstay]
    · simp [h3]

/-- C4, counterexample: from the fresh memory state, three consecutive
losses at time 0 pause trading until 43200 s (12 h after the third loss),
but a fourth consecutive loss at time 3600 — before that pause expires —
moves the deadline to 46800 s (12 h after the fourth loss): the pause is
extended, contrary to the claim. -/
theorem C4_counterexample :
    (AdaptiveMemory.update_after_trade_closed 0 "BTCUSDT" "continuation" (-1)
      (AdaptiveMemory.update_after_trade_closed 0 "BTCUSDT" "continuation" (-1)
        (AdaptiveMemory.update_after_trade_closed 0 "BTCUSDT" "continuation" (-1)
          AdaptiveMemory.init))).trading_paused_until = some 43200 ∧
    (AdaptiveMemory.update_after_trade_closed 3600 "BTCUSDT" "continuation" (-1)
      (AdaptiveMemory.update_after_trade_closed 0 "BTCUSDT" "continuation" (-1)
        (AdaptiveMemory.update_after_trade_closed 0 "BTCUSDT" "continuation" (-1)
          (AdaptiveMemory.update_after_trade_closed 0 "BTCUSDT" "continuation" (-1)
            AdaptiveMemory.init)))).trading_paused_until = some 46800 := by
  have hp : (-1 : ℚ) ≤ 0 := by norm_num
  obtain ⟨i1c, i1p⟩ :=
    AdaptiveMemory.loss_step 0 "BTCUSDT" "continuation" (-1) AdaptiveMemory.init hp
  rw [show AdaptiveMemory.init.consecutive_losses = 0 from rfl] at i1c
  rw [show AdaptiveMemory.init.consecutive_losses = 0 from rfl,
    show AdaptiveMemory.init.trading_paused_until = none from rfl] at i1p
  norm_num at i1c i1p
  obtain ⟨i2c, i2p⟩ := AdaptiveMemory.loss_step 0 "BTCUSDT" "continuation" (-1)
    (AdaptiveMemory.update_after_trade_closed 0 "BTCUSDT" "continuation" (-1)
      AdaptiveMemory.init) hp
  rw [i1c, i1p] at i2p
  rw [i1c] at i2c
  norm_num at i2c i2p
  obtain ⟨i3c, i3p⟩ := AdaptiveMemory.loss_step 0 "BTCUSDT" "continuation" (-1)
    (AdaptiveMemory.update_after_trade_closed 0 "BTCUSDT" "continuation" (-1)
      (AdaptiveMemory.update_after_trade_closed 0 "BTCUSDT" "continuation" (-1)
        AdaptiveMemory.init)) hp
  rw [i2c] at i3c i3p
  norm_num at i3c i3p
  obtain ⟨i4c, i4p⟩ := AdaptiveMemory.loss_step 3600 "BTCUSDT" "continuation" (-1)
    (AdaptiveMemory.update_after_trade_closed 0 "BTCUSDT" "continuation" (-1)
      (AdaptiveMemory.update_after_trade_closed 0 "BTCUSDT" "continuation" (-1)
        (AdaptiveMemory.update_after_trade_closed 0 "BTCUSDT" "continuation" (-1)
          AdaptiveMemory.init))) hp
  rw [i3c] at i4p
  norm_num at i4p
  exact ⟨i3p, i4p⟩

/-- C4, amended: three consecutive losses set a pause of exactly 12 hours
from the third loss, but the pause is re-armed on every further
consecutive loss: whenever a non-winning outcome arrives while the
consecutive-loss counter is already 2 or more, the deadline becomes
exactly 12 h after that outcome — a 4th consecutive loss before expiry
therefore extends the pause deadline. -/
theorem C4_pause_rearm (s : AdaptiveMemory) (now : ℚ)
    (symbol model_type : String) (pnl : ℚ) (hp : pnl ≤ 0)
    (hc : 2 ≤ s.consecutive_losses) :
    (AdaptiveMemory.update_after_trade_closed now symbol model_type pnl
      s).trading_paused_until = some (now + 12 * 60 * 60) := by
  have h := (AdaptiveMemory.loss_step now symbol model_type pnl s hp).2
  rwa [if_pos (by omega)] at h

/-- Witness for C4: the re-arm theorem applied at time 5 to a state whose
consecutive-loss counter is already 2. -/
theorem C4_pause_rearm_witness :
    (AdaptiveMemory.update_after_trade_closed 5 "BTCUSDT" "continuation" (-1)
      { AdaptiveMemory.init with consecutive_losses := 2 }).trading_paused_until =
      some (5 + 12 * 60 * 60) :=
  C4_pause_rearm { AdaptiveMemory.init with consecutive_losses := 2 } 5
    "BTCUSDT" "continuation" (-1) (by norm_num) (by norm_num)

/-- Membership in the embedded Python `range(a, b)`. -/
theorem mem_pyRange (a b j : ℕ) : j ∈ pyRange a b ↔ a ≤ j ∧ j < b := by
  unfold pyRange
  rw [List.mem_map]
  constructor
  · rintro ⟨x, hx, rfl⟩
    rw [List.mem_range] at hx
    omega
  · rintro ⟨h1, h2⟩
    exact ⟨j - a, by rw [List.mem_range]; omega, by omega⟩

/-- An index is listed by `_find_swing_highs` exactly when it lies in the
scanned range and passes the swing-high test. -/
theorem mem_find_swing_highs (candles : List PCandle) (i : ℕ) :
    i ∈ (StructureEngine.find_swing_highs candles 5).map SwingPoint.index ↔
      i ∈ pyRange 5 (candles.length - 5) ∧
        StructureEngine.isSwingHighAt candles 5 i = true := by
  unfold StructureEngine.find_swing_highs
  rw [List.mem_map]
  constructor
  · rintro ⟨sp, hsp, hidx⟩
    rw [List.mem_filterMap] at hsp
    obtain ⟨a, ha, hfa⟩ := hsp
    split_ifs at hfa with hsw
    · injection hfa with h
      subst h
      dsimp at hidx
      subst hidx
      exact ⟨ha, hsw⟩
  · rintro ⟨hmem, hsw⟩
    refine ⟨⟨(candles.getD i cdflt).high, i, true⟩, ?_, rfl⟩
    rw [List.mem_filterMap]
    exact ⟨i, hmem, by rw [if_pos hsw]⟩

/-- An index is listed by `_find_swing_lows` exactly when it lies in the
scanned range and passes the swing-low test. -/
theorem mem_find_swing_lows (candles : List PCandle) (i : ℕ) :
    i ∈ (StructureEngine.find_swing_lows candles 5).map SwingPoint.index ↔
      i ∈ pyRange 5 (candles.length - 5) ∧
        StructureEngine.isSwingLowAt candles 5 i = true := by
  unfold StructureEngine.find_swing_lows
  rw [List.mem_map]
  constructor
  · rintro ⟨sp, hsp, hidx⟩
    rw [List.mem_filterMap] at hsp
    obtain ⟨a, ha, hfa⟩ := hsp
    split_ifs at hfa with hsw
    · injection hfa with h
      subst h
      dsimp at hidx
      subst hidx
      exact ⟨ha, hsw⟩
  · rintro ⟨hmem, hsw⟩
    refine ⟨⟨(candles.getD i cdflt).low, i, false⟩, ?_, rfl⟩
    rw [List.mem_filterMap]
    exact ⟨i, hmem, by rw [if_pos hsw]⟩

/-- The swing-high loop test, for an interior index, is the strict
dominance of the candle's high over the full symmetric window. -/
theorem isSwingHighAt_iff (candles : List PCandle) (i : ℕ) (h5 : 5 ≤ i)
    (hlen : i + 5 < candles.length) :
    StructureEngine.isSwingHighAt candles 5 i = true ↔
      ∀ j, i - 5 ≤ j → j ≤ i + 5 → j ≠ i →
        (candles.getD j cdflt).high < (candles.getD i cdflt).high := by
  unfold StructureEngine.isSwingHighAt
  rw [Bool.and_eq_true, List.all_eq_true, List.all_eq_true]
  constructor
  · rintro ⟨hl, hr⟩ j hj1 hj2 hj3
    rcases Nat.lt_or_ge j i with hlt | hge
    · have := hl j ((mem_pyRange _ _ _).mpr ⟨hj1, hlt⟩)
      simpa using this
    · have hgt : i < j := by omega
      have := hr j ((mem_pyRange _ _ _).mpr ⟨by omega, by omega⟩)
      simpa using this
  · intro hall
    constructor
    · intro j hj
      rw [mem_pyRange] at hj
      simpa using hall j (by omega) (by omega) (by omega)
    · intro j hj
      rw [mem_pyRange] at hj
      have hjlt : j < min (i + 5 + 1) candles.length := hj.2
      simpa using hall j (by omega) (by omega) (by omega)

/-- The swing-low loop test, for an interior index, is the strict
dominance of the candle's low below the full symmetric window. -/
theorem isSwingLowAt_iff (candles : List PCandle) (i : ℕ) (h5 : 5 ≤ i)
    (hlen : i + 5 < candles.length) :
    StructureEngine.isSwingLowAt candles 5 i = true ↔
      ∀ j, i - 5 ≤ j → j ≤ i + 5 → j ≠ i →
        (candles.getD i cdflt).low < (candles.getD j cdflt).low := by
  unfold StructureEngine.isSwingLowAt
  rw [Bool.and_eq_true, List.all_eq_true, List.all_eq_true]
  constructor
  · rintro ⟨hl, hr⟩ j hj1 hj2 hj3
    rcases Nat.lt_or_ge j i with hlt | hge
    · have := hl j ((mem_pyRange _ _ _).mpr ⟨hj1, hlt⟩)
      simpa using this
    · have hgt : i < j := by omega
      have := hr j ((mem_pyRange _ _ _).mpr ⟨by omega, by omega⟩)
      simpa using this
  · intro hall
    constructor
    · intro j hj
      rw [mem_pyRange] at hj
      simpa using hall j (by omega) (by omega) (by omega)
    · intro j hj
      rw [mem_pyRange] at hj
      have hjlt : j < min (i + 5 + 1) candles.length := hj.2
      simpa using hall j (by omega) (by omega) (by omega)

/-- C8, confirmed: a candle index is detected as a swing high by
`_find_swing_highs` iff the full 5-candle window exists on both sides and
its high strictly exceeds the high of every other candle in that window
(ties disqualify); symmetrically, it is detected as a swing low by
`_find_swing_lows` iff its low is strictly below every other low in the
window. -/
theorem C8_swing_detection (candles : List PCandle) (i : ℕ) :
    (i ∈ (StructureEngine.find_swing_highs candles 5).map SwingPoint.index ↔
      5 ≤ i ∧ i + 5 < candles.length ∧
      ∀ j, i - 5 ≤ j → j ≤ i + 5 → j ≠ i →
        (candles.getD j cdflt).high < (candles.getD i cdflt).high) ∧
    (i ∈ (StructureEngine.find_swing_lows candles 5).map SwingPoint.index ↔
      5 ≤ i ∧ i + 5 < candles.length ∧
      ∀ j, i - 5 ≤ j → j ≤ i + 5 → j ≠ i →
        (candles.getD i cdflt).low < (candles.getD j cdflt).low) := by
  constructor
  · rw [mem_find_swing_highs, mem_pyRange]
    constructor
    · rintro ⟨⟨h5, hup⟩, hsw⟩
      have hlen : i + 5 < candles.length := by omega
      exact ⟨h5, hlen, (isSwingHighAt_iff candles i h5 hlen).mp hsw⟩
    · rintro ⟨h5, hlen, hall⟩
      exact ⟨⟨h5, by omega⟩, (isSwingHighAt_iff candles i h5 hlen).mpr hall⟩
  · rw [mem_find_swing_lows, mem_pyRange]
    constructor
    · rintro ⟨⟨h5, hup⟩, hsw⟩
      have hlen : i + 5 < candles.length := by omega
      exact ⟨h5, hlen, (isSwingLowAt_iff candles i h5 hlen).mp hsw⟩
    · rintro ⟨h5, hlen, hall⟩
      exact ⟨⟨h5, by omega⟩, (isSwingLowAt_iff candles i h5 hlen).mpr hall⟩

/-- The sideway branch, for a warmed-up (≥ 50 candle) window, is exactly
the disjunction of its three short-circuit conditions: low relative ATR,
no higher-high/lower-low pattern, or no recent displacement body. -/
theorem is_sideway_iff (c : List PCandle) (h : 50 ≤ c.length) :
    RegimeEngine.is_sideway c = true ↔
      ((if 0 < (c.getD (c.length - 1) cdflt).close then
          Utils.calculate_atr c 14 / (c.getD (c.length - 1) cdflt).close
        else 0) < SIDEWAY_ATR_THRESHOLD ∨
       ((StructureEngine.analyze_structure c "4h").has_higher_highs = false ∧
        (StructureEngine.analyze_structure c "4h").has_lower_lows = false) ∨
       (∀ candle ∈ pyTakeLast c 10,
          candle.body ≤ Utils.calculate_atr c 14 * SIDEWAY_DISPLACEMENT_THRESHOLD)) := by
  simp only [RegimeEngine.is_sideway]
  rw [if_neg (by omega)]
  by_cases hcl : 0 < (c.getD (c.length - 1) cdflt).close
  · simp only [if_pos hcl]
    split_ifs with h1 h2 h3
    · simpa using Or.inl h1
    · simpa using Or.inr (Or.inl h2)
    · have hall : ∀ candle ∈ pyTakeLast c 10,
          candle.body ≤ Utils.calculate_atr c 14 * SIDEWAY_DISPLACEMENT_THRESHOLD := by
        intro x hx
        have := List.any_eq_false.mp h3 x hx
        simpa using this
      simpa using Or.inr (Or.inr hall)
    · simp only [Bool.false_eq_true, false_iff]
      rintro (hA | hB | hC)
      · exact h1 hA
      · exact h2 hB
      · rw [Bool.not_eq_false, List.any_eq_true] at h3
        obtain ⟨x, hx, hxp⟩ := h3
        rw [decide_eq_true_eq] at hxp
        exact absurd hxp (not_lt.mpr (hC x hx))
  · have hthr : (0 : ℚ) < SIDEWAY_ATR_THRESHOLD := by
      norm_num [SIDEWAY_ATR_THRESHOLD]
    simp only [if_neg hcl]
    rw [if_pos hthr]
    simpa using Or.inl hthr

/-- The confirmed-reversal test, for a window of at least 10 candles, is
exactly its three conditions: 4h CHoCH, non-neutral 4h trend, and a
recent body above 2×ATR. -/
theorem is_confirmed_reversal_iff (s1 s4 : StructureState)
    (c : List PCandle) (h : 10 ≤ c.length) :
    RegimeEngine.is_confirmed_reversal s1 s4 c = true ↔
      (s4.last_break = StructureEvent.CHOCH ∧
       s4.trend ≠ TrendDirection.neutral ∧
       ∃ candle ∈ pyTakeLast c 10,
         Utils.calculate_atr c 14 * 2 < candle.body) := by
  simp only [RegimeEngine.is_confirmed_reversal]
  split_ifs with h1 h2 h3
  · simp only [Bool.false_eq_true, false_iff]
    rintro ⟨hA, _⟩
    exact h1 hA
  · simp only [Bool.false_eq_true, false_iff]
    rintro ⟨_, hB, _⟩
    exact hB h2
  · omega
  · rw [not_not] at h1
    rw [List.any_eq_true]
    simp [h1, h2]

/-- The trending-continuation test is exactly its four conditions:
shared non-neutral trend, both structures intact, and no 4h CHoCH. -/
theorem is_trending_continuation_iff (s1 s4 : StructureState) :
    RegimeEngine.is_trending_continuation s1 s4 = true ↔
      (s1.trend = s4.trend ∧ s1.trend ≠ TrendDirection.neutral ∧
       s1.structure_intact = true ∧ s4.structure_intact = true ∧
       s4.last_break ≠ StructureEvent.CHOCH) := by
  simp only [RegimeEngine.is_trending_continuation,
    StructureEngine.check_alignment]
  split_ifs with h1 h2 h3 h4 <;> simp_all

/-- C9, confirmed: for a warmed-up anchor window (≥ 50 4h candles),
`classify_regime` evaluates Sideway first (short-circuiting on low
relative ATR, or no higher-high/lower-low pattern, or no recent body
above 1.5×ATR), then Reversal (4h CHoCH, non-neutral 4h trend, a recent
body above 2×ATR), then Continuation (shared non-neutral 1d/4h trend,
both structures intact, no 4h CHoCH), and returns Sideway when no branch
matches; the Reversal test precedes the Continuation test, so any input
passing the Reversal conditions is classified Reversal regardless of the
Continuation conditions. -/
theorem C9_regime_precedence (candles_1d candles_4h candles_30m : List PCandle)
    (h : 50 ≤ candles_4h.length) :
    RegimeEngine.classify_regime candles_1d candles_4h candles_30m =
      (if ((if 0 < (candles_4h.getD (candles_4h.length - 1) cdflt).close then
              Utils.calculate_atr candles_4h 14 /
                (candles_4h.getD (candles_4h.length - 1) cdflt).close
            else 0) < SIDEWAY_ATR_THRESHOLD ∨
           ((StructureEngine.analyze_structure candles_4h "4h").has_higher_highs = false ∧
            (StructureEngine.analyze_structure candles_4h "4h").has_lower_lows = false) ∨
           (∀ candle ∈ pyTakeLast candles_4h 10,
              candle.body ≤ Utils.calculate_atr candles_4h 14 *
                SIDEWAY_DISPLACEMENT_THRESHOLD))
       then RegimeType.SIDEWAY
       else if ((StructureEngine.analyze_structure candles_4h "4h").last_break =
              StructureEvent.CHOCH ∧
            (StructureEngine.analyze_structure candles_4h "4h").trend ≠
              TrendDirection.neutral ∧
            ∃ candle ∈ pyTakeLast candles_4h 10,
              Utils.calculate_atr candles_4h 14 * 2 < candle.body)
       then RegimeType.CONFIRMED_REVERSAL
       else if ((StructureEngine.analyze_structure candles_1d "1d").trend =
              (StructureEngine.analyze_structure candles_4h "4h").trend ∧
            (StructureEngine.analyze_structure candles_1d "1d").trend ≠
              TrendDirection.neutral ∧
            (StructureEngine.analyze_structure candles_1d "1d").structure_intact = true ∧
            (StructureEngine.analyze_structure candles_4h "4h").structure_intact = true ∧
            (StructureEngine.analyze_structure candles_4h "4h").last_break ≠
              StructureEvent.CHOCH)
       then RegimeType.TRENDING_CONTINUATION
       else RegimeType.SIDEWAY) := by
  have h10 : 10 ≤ candles_4h.length := by omega
  unfold RegimeEngine.classify_regime
  by_cases hs : RegimeEngine.is_sideway candles_4h = true
  · rw [if_pos hs, if_pos ((is_sideway_iff candles_4h h).mp hs)]
  · have hns := fun hc => hs ((is_sideway_iff candles_4h h).mpr hc)
    rw [if_neg hs, if_neg hns]
    dsimp only
    by_cases hr : RegimeEngine.is_confirmed_reversal
        (StructureEngine.analyze_structure candles_1d "1d")
        (StructureEngine.analyze_structure candles_4h "4h") candles_4h = true
    · rw [if_pos hr,
        if_pos ((is_confirmed_reversal_iff _ _ _ h10).mp hr)]
    · have hnr := fun hc => hr ((is_confirmed_reversal_iff
        (StructureEngine.analyze_structure candles_1d "1d")
        (StructureEngine.analyze_structure candles_4h "4h")
        candles_4h h10).mpr hc)
      rw [if_neg hr, if_neg hnr]
      by_cases hc : RegimeEngine.is_trending_continuation
          (StructureEngine.analyze_structure candles_1d "1d")
          (StructureEngine.analyze_structure candles_4h "4h") = true
      · rw [if_pos hc, if_pos ((is_trending_continuation_iff _ _).mp hc)]
      · have hnc := fun hcc => hc ((is_trending_continuation_iff
          (StructureEngine.analyze_structure candles_1d "1d")
          (StructureEngine.analyze_structure candles_4h "4h")).mpr hcc)
        rw [if_neg hc, if_neg hnc]

/-- Indexing into a replicated candle list. -/
theorem getD_replicate_flat (n j : ℕ) (c : PCandle) (hj : j < n) :
    (List.replicate n c).getD j cdflt = c := by
  rw [List.getD_eq_getElem?_getD, List.getElem?_replicate, if_pos hj]
  rfl

/-- The ATR of a flat replicated window is zero. -/
theorem atr_replicate_flat :
    Utils.calculate_atr (List.replicate 50 (⟨1, 1, 1, 1, 1⟩ : PCandle)) 14 = 0 := by
  unfold Utils.calculate_atr
  rw [if_neg (by simp)]
  dsimp only
  rw [List.sum_eq_zero, zero_div]
  case _ => rfl
  intro x hx
  rw [List.mem_map] at hx
  obtain ⟨i, hi, rfl⟩ := hx
  rw [mem_pyRange] at hi
  simp only [List.length_replicate, List.reverse_replicate] at hi ⊢
  rw [getD_replicate_flat 50 (i - 1) _ (by omega),
    getD_replicate_flat 50 i _ (by omega)]
  norm_num

/-- Witness for C9: the precedence theorem applied to a flat 50-candle
window, which the low-ATR short circuit classifies as sideway. -/
theorem C9_regime_precedence_witness :
    RegimeEngine.classify_regime (List.replicate 50 (⟨1, 1, 1, 1, 1⟩ : PCandle))
      (List.replicate 50 ⟨1, 1, 1, 1, 1⟩) (List.replicate 50 ⟨1, 1, 1, 1, 1⟩) =
      RegimeType.SIDEWAY := by
  rw [C9_regime_precedence _ _ _ (by simp)]
  rw [if_pos]
  left
  have hclose : ((List.replicate 50 (⟨1, 1, 1, 1, 1⟩ : PCandle)).getD
      ((List.replicate 50 (⟨1, 1, 1, 1, 1⟩ : PCandle)).length - 1) cdflt).close = 1 := by
    rw [List.length_replicate, getD_replicate_flat 50 49 _ (by norm_num)]
  rw [hclose, if_pos (by norm_num), atr_replicate_flat]
  norm_num [SIDEWAY_ATR_THRESHOLD]
